import Mathlib

/-!
Verification development for the crypto gainers scanner.

The definitions below are a shallow embedding of the per-candidate
signal-evaluation pipeline of `scanner_supabase_http.py` (the multi-exchange
scanner with CoinGecko fallback), of the sqlite dedup ledger of
`scanner_coingecko_sqlite.py`, and of the per-pass orchestration of
`scanner_supabase.py`.  Real-valued float arithmetic is embedded as exact
rational arithmetic over `ℚ`; fallible external calls (exchange fetch,
CoinGecko market chart, Supabase REST read, Telegram send) are modelled as
oracle inputs carrying the call's observable result (`Option`/`Except`).
-/

namespace Scanner

/-- One OHLCV bar (a row of the pandas frames used throughout the code).
Field `open_` embeds the `open` column (Lean reserves the word). -/
structure Bar where
  open_ : ℚ
  high : ℚ
  low : ℚ
  close : ℚ
  volume : ℚ
deriving DecidableEq, Repr

/-- Placeholder bar used as the default of guarded list accesses; every use
is under a guard making the list non-empty, so the value is never read. -/
def dummyBar : Bar := ⟨0, 0, 0, 0, 0⟩

/-- The record returned by `compute_signals` in `scanner_supabase_http.py`:
`{"vol_pct_24h": None, "price_pct_15_vs_1h": None, "rsi_1h": None,
  "macd_bull_cross": False, "last_close": None}`. -/
structure Signals where
  vol_pct_24h : Option ℚ
  price_pct_15_vs_1h : Option ℚ
  rsi_1h : Option ℚ
  macd_bull_cross : Bool
  last_close : Option ℚ
deriving DecidableEq, Repr

/-- Pandas `ewm(..., adjust=False).mean()` over a whole series:
`y₀ = x₀`, `yₜ = (1-α)·yₜ₋₁ + α·xₜ`.  Returns the full output series
(same length as the input). -/
def ewmSeriesD (a : ℚ) : List ℚ → List ℚ
  | [] => []
  | x :: xs => xs.scanl (fun acc v => (1 - a) * acc + a * v) x

/-- Last value of the same exponentially weighted recursion (used for the
Wilder-smoothed gain/loss averages inside the RSI); `0` on the empty series,
which is unreachable under the callers' length guards. -/
def ewmLastD (a : ℚ) : List ℚ → ℚ
  | [] => 0
  | x :: xs => xs.foldl (fun acc v => (1 - a) * acc + a * v) x

/-- `iloc[-1]` of a bar frame (guarded non-empty at every use). -/
def lastBar (l : List Bar) : Bar := l.getLastD dummyBar

/-- `volume` column of the frame. -/
def volumes (l : List Bar) : List ℚ := l.map Bar.volume

/-- `close` column of the frame. -/
def closes (l : List Bar) : List ℚ := l.map Bar.close

/-- `df1h['volume'].iloc[-24:].sum()` — sum of the last 24 hourly volumes. -/
def volLast24 (l : List Bar) : ℚ :=
  ((volumes l).drop ((volumes l).length - 24)).sum

/-- `df1h['volume'].iloc[-48:-24].sum()` — sum of the previous 24 hourly
volumes. -/
def volPrev24 (l : List Bar) : ℚ :=
  (((volumes l).drop ((volumes l).length - 48)).take 24).sum

/-- The 24h volume-change block of `compute_signals`:
gated on `len(df1h) >= 48`, and on `vol_prev24 > 0` for the division. -/
def volPct24h (l : List Bar) : Option ℚ :=
  if 48 ≤ l.length then
    if 0 < volPrev24 l then some ((volLast24 l / volPrev24 l - 1) * 100)
    else none
  else none

/-- The 15m-vs-1h price block of `compute_signals`: gated on a non-empty 15m
frame and `len(df1h) >= 2`; a zero hourly reference close makes the Python
float division raise `ZeroDivisionError`, which the surrounding `except`
turns into `None`. -/
def pricePct15vs1h (l : List Bar) (d15 : Option (List Bar)) : Option ℚ :=
  match d15 with
  | none => none
  | some m =>
    if m.isEmpty then none
    else if 2 ≤ l.length then
      let close15 := (lastBar m).close
      let close1hAgo := (lastBar l.dropLast).close
      if close1hAgo = 0 then none
      else some ((close15 / close1hAgo - 1) * 100)
    else none

/-- `ta.momentum.RSIIndicator(close, window=14).rsi()` at the last bar:
one-step close differences, Wilder smoothing of gains and losses with
`alpha = 1/14` starting at the first difference, `100` when the smoothed
loss average is zero (the `np.where(emadn == 0, 100, ...)` branch). -/
def rsiLast (cl : List ℚ) : ℚ :=
  let diffs := List.zipWith (fun a b => a - b) cl.tail cl
  let ups := diffs.map (fun d => max d 0)
  let downs := diffs.map (fun d => max (-d) 0)
  let emaup := ewmLastD (1 / 14) ups
  let emadn := ewmLastD (1 / 14) downs
  if emadn = 0 then 100 else 100 - 100 / (1 + emaup / emadn)

/-- The RSI block of `compute_signals`, gated on `len(df1h) >= 20`. -/
def rsi1hOf (l : List Bar) : Option ℚ :=
  if 20 ≤ l.length then some (rsiLast (closes l)) else none

/-- `ta.trend.MACD` line: `EMA(12) − EMA(26)` of the closes (pandas span
alphas `2/13` and `2/27`, `adjust=False`). -/
def macdLineSeries (cl : List ℚ) : List ℚ :=
  List.zipWith (fun a b => a - b) (ewmSeriesD (2 / 13) cl) (ewmSeriesD (2 / 27) cl)

/-- `ta.trend.MACD` signal line: `EMA(9)` of the MACD line (span alpha
`2/10`); the smoothing is run from the start of the series, which agrees
with the library on every value at or past the 26-bar warm-up. -/
def macdSignalSeries (cl : List ℚ) : List ℚ :=
  ewmSeriesD (1 / 5) (macdLineSeries cl)

/-- `macd_line.iloc[-2]`. -/
def macdPrev (cl : List ℚ) : ℚ := (macdLineSeries cl).dropLast.getLastD 0

/-- `macd_signal.iloc[-2]`. -/
def macdSigPrev (cl : List ℚ) : ℚ := (macdSignalSeries cl).dropLast.getLastD 0

/-- `macd_line.iloc[-1]`. -/
def macdCur (cl : List ℚ) : ℚ := (macdLineSeries cl).getLastD 0

/-- `macd_signal.iloc[-1]`. -/
def macdSigCur (cl : List ℚ) : ℚ := (macdSignalSeries cl).getLastD 0

/-- The MACD block of `compute_signals`: gated on `len(df1h) >= 35` and on
both series having at least two entries, then
`(prev_macd < prev_sig) and (cur_macd > cur_sig)`. -/
def macdBullCross (l : List Bar) : Bool :=
  if 35 ≤ l.length then
    if 2 ≤ (macdLineSeries (closes l)).length ∧ 2 ≤ (macdSignalSeries (closes l)).length then
      decide (macdPrev (closes l) < macdSigPrev (closes l) ∧
              macdSigCur (closes l) < macdCur (closes l))
    else false
  else false

/-- `compute_signals(df1h, df15m)` of `scanner_supabase_http.py`.  A `None`
or empty hourly frame returns the all-default record at once (the early
`return results`); otherwise each field is computed under its own length
gate. -/
def compute_signals (df1h df15m : Option (List Bar)) : Signals :=
  match df1h with
  | none => ⟨none, none, none, false, none⟩
  | some l =>
    if l.isEmpty then ⟨none, none, none, false, none⟩
    else
      { vol_pct_24h := volPct24h l
        price_pct_15_vs_1h := pricePct15vs1h l df15m
        rsi_1h := rsi1hOf l
        macd_bull_cross := macdBullCross l
        last_close := some (lastBar l).close }

/-! ## Dedup ledger — Supabase REST (`scanner_supabase_http.py`) and
sqlite (`scanner_coingecko_sqlite.py`) backends.  Times are seconds on an
integer clock; the REST read carries its transport outcome (`none` models
a failed `requests.get`/non-2xx response caught by the `except` block). -/

/-- One row of the `alerts` table, restricted to the columns the dedup
check reads. -/
structure AlertRow where
  coin_id : String
  alert_time : ℤ
deriving DecidableEq, Repr

/-- The server-side filter of the REST read in `was_alerted_recent`:
`coin_id = eq.<key>` and `alert_time = gte.<cutoff>`. -/
def supabaseQuery (db : List AlertRow) (key : String) (cutoff : ℤ) : List AlertRow :=
  db.filter (fun r => r.coin_id = key ∧ cutoff ≤ r.alert_time)

/-- `was_alerted_recent` of `scanner_supabase_http.py`: `len(r.json()) > 0`
on success; on any exception the handler logs and returns `False`
("if DB unreachable, assume not alerted to avoid missing alerts later"). -/
def was_alerted_recent_http (db : Option (List AlertRow)) (key : String) (cutoff : ℤ) : Bool :=
  match db with
  | some rows => decide (0 < (supabaseQuery rows key cutoff).length)
  | none => false

/-- `record_alert` of `scanner_coingecko_sqlite.py`: inserts a row stamped
with the current clock at write time (`now_ts`). -/
def record_alert_sql (db : List AlertRow) (key : String) (now : ℤ) : List AlertRow :=
  db ++ [⟨key, now⟩]

/-- `was_alerted_recent` of `scanner_coingecko_sqlite.py`: any row with the
given `coin_id` and `alert_time >= now - hours*3600`. -/
def was_alerted_recent_sql (db : List AlertRow) (key : String) (now : ℤ) (hours : ℤ) : Bool :=
  db.any (fun r => decide (r.coin_id = key ∧ now - hours * 3600 ≤ r.alert_time))

/-! ## Per-candidate orchestration of `scan_once` in
`scanner_supabase_http.py` (lines 309–384).  The external calls made for
one candidate are collected in `CandidateEnv`: the two exchange OHLCV
fetches (already `None` on error or empty result, as `fetch_ohlcv`
returns), the CoinGecko id lookup, the result of
`build_ohlcv_from_coingecko`, the ledger database (with `none` for a
failed read), and the Telegram outcome. -/

structure CandidateEnv where
  fetch1h : Option (List Bar)
  fetch15m : Option (List Bar)
  cgId : Option String
  cgData : Option (List Bar × List Bar)
  db : Option (List AlertRow)
  coinId : String
  now : ℤ
  sendOk : Bool
deriving DecidableEq, Repr

/-- How one candidate's processing ended (mirrors the `continue`/fallthrough
structure of the loop body). -/
inductive Outcome where
  | skipMissingData
  | skipInsufficient
  | skipThresholds
  | skipDedup
  | dispatchFailed
  | alerted
deriving DecidableEq, Repr

/-- `send_telegram` was called for this outcome. -/
def dispatched : Outcome → Bool
  | .alerted => true
  | .dispatchFailed => true
  | _ => false

/-- `record_alert` was called (and the coin id appended to `alerts_sent`)
for this outcome. -/
def recordedLedger : Outcome → Bool
  | .alerted => true
  | _ => false

/-- The `need_fallback` flag of `scan_once`: set when either fetch returned
`None`, or when the hourly frame has fewer than 48 bars
(`len(df1h) < 48 or len(df1h) < 35`). -/
def need_fallback (f1h f15m : Option (List Bar)) : Bool :=
  match f1h, f15m with
  | some d1, some _ => decide (d1.length < 48) || decide (d1.length < 35)
  | _, _ => true

/-- The per-frame replacement step inside the fallback branch:
`if df is None or df.empty: df = cg_df` — a non-empty primary frame is
kept even when it was too short. -/
def fallbackApply (f : Option (List Bar)) (cg : List Bar) : Option (List Bar) :=
  match f with
  | none => some cg
  | some l => if l.isEmpty then some cg else some l

/-- The whole fallback section of the loop body.  Returns the frames used
afterwards, whether `build_ohlcv_from_coingecko` was invoked (a CoinGecko
id was found), and the `used_fallback` flag (synthesis returned frames). -/
def fallbackStep (env : CandidateEnv) : (Option (List Bar) × Option (List Bar)) × Bool × Bool :=
  if need_fallback env.fetch1h env.fetch15m then
    match env.cgId with
    | some _ =>
      match env.cgData with
      | some (cg1h, cg15m) =>
        ((fallbackApply env.fetch1h cg1h, fallbackApply env.fetch15m cg15m), true, true)
      | none => ((env.fetch1h, env.fetch15m), true, false)
    | none => ((env.fetch1h, env.fetch15m), false, false)
  else ((env.fetch1h, env.fetch15m), false, false)

/-- The bar frames on which `compute_signals` is (or would be) run. -/
def finalData (env : CandidateEnv) : Option (List Bar) × Option (List Bar) :=
  (fallbackStep env).1

/-- Rule evaluation and alerting tail of the loop body: the three-way null
check (line 353), the four thresholds (`vol% ≥ 150`, `3 ≤ price% ≤ 15`,
`50 ≤ rsi ≤ 70`, MACD cross), the dedup check with a 6-hour cutoff, the
dispatch, and the ledger write gated on dispatch success. -/
def evalSignals (sig : Signals) (db : Option (List AlertRow)) (coinId : String)
    (now : ℤ) (sendOk : Bool) : Outcome :=
  match sig.vol_pct_24h, sig.price_pct_15_vs_1h, sig.rsi_1h with
  | some v, some p, some r =>
    if 150 ≤ v ∧ (3 ≤ p ∧ p ≤ 15) ∧ (50 ≤ r ∧ r ≤ 70) ∧ sig.macd_bull_cross = true then
      if was_alerted_recent_http db coinId (now - 6 * 3600) then .skipDedup
      else if sendOk then .alerted else .dispatchFailed
    else .skipThresholds
  | _, _, _ => .skipInsufficient

/-- Everything the loop body leaves behind for one candidate. -/
structure ProcResult where
  outcome : Outcome
  fallbackAttempted : Bool
  usedFallback : Bool
  final1h : Option (List Bar)
  final15m : Option (List Bar)
deriving DecidableEq, Repr

/-- The loop body of `scan_once` for one candidate (after the
`exchange is None` guard and the inter-request sleep). -/
def processCandidate (env : CandidateEnv) : ProcResult :=
  match finalData env with
  | (some d1, some d15) =>
    { outcome := evalSignals (compute_signals (some d1) (some d15))
        env.db env.coinId env.now env.sendOk
      fallbackAttempted := (fallbackStep env).2.1
      usedFallback := (fallbackStep env).2.2
      final1h := some d1
      final15m := some d15 }
  | (f1, f15) =>
    { outcome := .skipMissingData
      fallbackAttempted := (fallbackStep env).2.1
      usedFallback := (fallbackStep env).2.2
      final1h := f1
      final15m := f15 }

/-! ## Per-entry processing of `scan_once` in
`scanner_coingecko_sqlite.py` (lines 94–119). -/

/-- One CoinGecko market entry, reduced to the fields the sqlite scanner
reads (`or 0.0` defaults already applied). -/
structure MarketEntry where
  id : String
  symbol : String
  pct : ℚ
  vol : ℚ
deriving DecidableEq, Repr

/-- External outcomes for one sqlite-scanner entry. -/
structure SqliteEnv where
  entry : MarketEntry
  alreadyRecent : Bool
  sendOk : Bool
deriving DecidableEq, Repr

/-- How one sqlite-scanner entry ended. -/
inductive SqOutcome where
  | noMatch
  | skipRecent
  | dispatchFailed
  | alerted
deriving DecidableEq, Repr

/-- `record_alert` was called for this outcome. -/
def recordedSq : SqOutcome → Bool
  | .alerted => true
  | _ => false

/-- Loop body of the sqlite scanner: threshold check
(`pct >= 15 and vol >= 100000`), dedup check, Telegram send, and the
ledger write gated on `ok`. -/
def processEntrySqlite (env : SqliteEnv) : SqOutcome :=
  if 15 ≤ env.entry.pct ∧ 100000 ≤ env.entry.vol then
    if env.alreadyRecent then .skipRecent
    else if env.sendOk then .alerted else .dispatchFailed
  else .noMatch

/-! ## CoinGecko fallback synthesis (`build_ohlcv_from_coingecko`,
lines 246–285 of `scanner_supabase_http.py`).  The market-chart payload is
a pair of `(timestamp_ms, value)` series; the code outer-joins them on
timestamp, forward-fills, drops rows still missing a side, then resamples
to 1-hour and 15-minute OHLCV buckets and drops empty buckets. -/

/-- A `market_chart` payload: `prices` and `total_volumes`, each a list of
`(millisecond timestamp, value)` pairs in ascending timestamp order. -/
structure MarketChart where
  prices : List (ℤ × ℚ)
  total_volumes : List (ℤ × ℚ)
deriving DecidableEq, Repr

/-- Insert a timestamp into an ascending duplicate-free list. -/
def insertAsc (t : ℤ) : List ℤ → List ℤ
  | [] => [t]
  | x :: xs =>
    if t = x then x :: xs
    else if t ≤ x then t :: x :: xs
    else x :: insertAsc t xs

/-- Ascending duplicate-free list of all timestamps of both series (the
index of the outer join). -/
def unionIndex (ps vs : List (ℤ × ℚ)) : List ℤ :=
  ((ps.map Prod.fst) ++ (vs.map Prod.fst)).foldr insertAsc []

/-- Value of a forward-filled series at a timestamp: the value of the last
sample at or before `t` (`none` while before the first sample — the rows
`dropna` removes). -/
def ffillAt (series : List (ℤ × ℚ)) (t : ℤ) : Option ℚ :=
  series.foldl (fun acc p => if p.1 ≤ t then some p.2 else acc) none

/-- One row of the joined, forward-filled, `dropna`-ed frame. -/
structure PV where
  ts : ℤ
  price : ℚ
  vol : ℚ
deriving DecidableEq, Repr

/-- `dfp.join(dfv, how="outer").ffill().dropna()`. -/
def mergeFfill (ps vs : List (ℤ × ℚ)) : List PV :=
  (unionIndex ps vs).filterMap (fun t =>
    match ffillAt ps t, ffillAt vs t with
    | some p, some v => some ⟨t, p, v⟩
    | _, _ => none)

/-- Label of the resample bucket containing a timestamp, for a bucket width
of `ms` milliseconds (pandas floors the timestamp to the bucket start). -/
def bucketKey (ms t : ℤ) : ℤ := t.fdiv ms

/-- `resample(...)` with `first/max/min/last/sum` aggregation followed by
`dropna()`: one OHLCV bar per non-empty bucket, in index order. -/
def resampleBuckets (rows : List PV) (ms : ℤ) : List Bar :=
  ((rows.map (fun r => bucketKey ms r.ts)).dedup).filterMap (fun k =>
    match rows.filter (fun r => bucketKey ms r.ts = k) with
    | [] => none
    | r :: rs =>
      some { open_ := r.price
             high := (rs.map PV.price).foldl max r.price
             low := (rs.map PV.price).foldl min r.price
             close := ((rs.map PV.price).foldl (fun _ v => v) r.price)
             volume := r.vol + (rs.map PV.vol).sum })

/-- `build_ohlcv_from_coingecko`: `chart` is the first successful
`market_chart` response (`none` when both the 3-day and 2-day requests
failed); an empty `prices` series also yields `None`. -/
def build_ohlcv_from_coingecko (chart : Option MarketChart) : Option (List Bar × List Bar) :=
  match chart with
  | none => none
  | some ch =>
    if ch.prices.isEmpty then none
    else
      let rows := mergeFfill ch.prices ch.total_volumes
      some (resampleBuckets rows 3600000, resampleBuckets rows 900000)

/-! ## Pass orchestration of `scan_once` in `scanner_supabase.py`
(lines 186–255).  Unlike the REST variant, `was_alerted_recent` and
`record_alert` there run a Postgres statement with no exception handling,
so their failures are modelled in `Except` and propagate out of the loops.
`fetch_ohlcv_for_symbol` and `compute_indicators` both catch or signal
their own failures with `None`; their observable results are supplied as
per-entry oracles. -/

/-- One CoinGecko market row as read by `scanner_supabase.py`. -/
structure SBMarket where
  id : String
  symbol : String
  pct24 : ℚ
  totalVolume : ℚ
deriving DecidableEq, Repr

/-- The record returned by `compute_indicators` (fields the rule check
reads). -/
structure SBInd where
  vol_gain_pct : ℚ
  breakout_pct : ℚ
  rsi_15 : Option ℚ
  rsi_1h : Option ℚ
deriving DecidableEq, Repr

/-- One exchange-mapped candidate of the first loop, with the observable
results of its fetch and indicator computation. -/
structure SBMapped where
  coin : SBMarket
  df : Option Unit
  ind : Option SBInd
deriving DecidableEq, Repr

/-- First loop of `scan_once` (exchange-mapped candidates, lines 203–232):
thresholds `vol_gain_pct >= 150`, `breakout_pct >= 1.5`,
`rsi_15 > 20 and rsi_1h < 85`; the unguarded ledger calls run in `Except`
and abort the fold on error. -/
def sb_loop1 (dbRead : String → Except Unit Bool) (dbWrite : String → Except Unit Unit)
    (send : Bool) : List SBMapped → List String → Except Unit (List String)
  | [], acc => .ok acc
  | e :: rest, acc =>
    match e.df with
    | none => sb_loop1 dbRead dbWrite send rest acc
    | some _ =>
      match e.ind with
      | none => sb_loop1 dbRead dbWrite send rest acc
      | some ind =>
        if 150 ≤ ind.vol_gain_pct ∧ (3 : ℚ) / 2 ≤ ind.breakout_pct ∧
           (∃ r15, ind.rsi_15 = some r15 ∧ 20 < r15) ∧
           (∃ r1h, ind.rsi_1h = some r1h ∧ r1h < 85) then
          match dbRead e.coin.id with
          | .error err => .error err
          | .ok true => sb_loop1 dbRead dbWrite send rest acc
          | .ok false =>
            if send then
              match dbWrite e.coin.id with
              | .error err => .error err
              | .ok _ => sb_loop1 dbRead dbWrite send rest (acc ++ [e.coin.id])
            else sb_loop1 dbRead dbWrite send rest acc
        else sb_loop1 dbRead dbWrite send rest acc

/-- Second loop of `scan_once` (CoinGecko-only fallback alerts,
lines 234–253): skip ids already alerted, thresholds
`pct >= 10 and vol >= 100000`, then the same unguarded ledger calls. -/
def sb_loop2 (dbRead : String → Except Unit Bool) (dbWrite : String → Except Unit Unit)
    (send : Bool) : List SBMarket → List String → Except Unit (List String)
  | [], acc => .ok acc
  | coin :: rest, acc =>
    if coin.id ∈ acc then sb_loop2 dbRead dbWrite send rest acc
    else if 10 ≤ coin.pct24 ∧ 100000 ≤ coin.totalVolume then
      match dbRead coin.id with
      | .error err => .error err
      | .ok true => sb_loop2 dbRead dbWrite send rest acc
      | .ok false =>
        if send then
          match dbWrite coin.id with
          | .error err => .error err
          | .ok _ => sb_loop2 dbRead dbWrite send rest (acc ++ [coin.id])
        else sb_loop2 dbRead dbWrite send rest acc
    else sb_loop2 dbRead dbWrite send rest acc

/-- `scan_once` of `scanner_supabase.py`: the mapped loop then the
CoinGecko-only loop, sharing the `alerts_sent` accumulator; a Postgres
error anywhere aborts the whole pass. -/
def scan_once_sb (mapped : List SBMapped) (markets : List SBMarket)
    (dbRead : String → Except Unit Bool) (dbWrite : String → Except Unit Unit)
    (send : Bool) : Except Unit (List String) :=
  match sb_loop1 dbRead dbWrite send mapped [] with
  | .error err => .error err
  | .ok acc => sb_loop2 dbRead dbWrite send markets acc

/-! ## Concrete data used by witnesses and counterexamples. -/

/-- A flat bar: all four price columns equal to `c`, volume `v`. -/
def mkBar (c v : ℚ) : Bar := ⟨c, c, c, c, v⟩

/-- 35 hourly closes engineered so that the MACD line is strictly below its
signal line at the second-to-last bar and exactly equal to it at the last
bar (MACD: prev `-140` vs signal `-28`, current `-28` vs signal `-28`). -/
def ceCloses : List ℚ := List.replicate 33 2000 ++ [245, 3004]

/-- The bars of `ceCloses`. -/
def ceBars : List Bar := ceCloses.map (fun c => mkBar c 1)

/-- 48 hourly bars that pass all four rules: previous-24h volume 24 vs
last-24h volume 72 (+200%), RSI(14) ≈ 67.99, and a strict MACD bullish
cross on the last bar (prev `-140 < -28`, current `28 > -84/5`). -/
def bars48 : List Bar :=
  List.replicate 24 (mkBar 2000 1) ++ List.replicate 22 (mkBar 2000 3) ++
    [mkBar 245 3, mkBar 3706 3]

/-- A 15-minute frame whose close is 4% above the second-to-last hourly
close of `bars48` (245 → 254.8). -/
def frame15 : List Bar := [mkBar (1274 / 5) 1]

/-- A fully qualifying candidate whose ledger read fails (`db = none`). -/
def env48 : CandidateEnv :=
  { fetch1h := some bars48
    fetch15m := some frame15
    cgId := none
    cgData := none
    db := none
    coinId := "binance:TEST"
    now := 1000000
    sendOk := true }

/-- The same qualifying candidate with a failing Telegram dispatch. -/
def env48send : CandidateEnv :=
  { env48 with db := some [], sendOk := false }

/-- A 40-bar hourly frame: non-empty but below the 48-bar minimum. -/
def d40 : List Bar := List.replicate 40 (mkBar 100 1)

/-- A 72-bar synthesized hourly frame (enough for every indicator). -/
def d72 : List Bar := List.replicate 72 (mkBar 100 1)

/-- A candidate whose primary fetch returns 40 bars and whose CoinGecko
fallback synthesis succeeds with 72 bars. -/
def env5 : CandidateEnv :=
  { fetch1h := some d40
    fetch15m := some [mkBar 100 1]
    cgId := some "xcoin"
    cgData := some (d72, [mkBar 100 1])
    db := some []
    coinId := "binance:X"
    now := 0
    sendOk := true }

/-- A 10-bar hourly frame (too short for the volume and RSI metrics). -/
def d10 : List Bar := List.replicate 10 (mkBar 100 1)

/-- A candidate with a 10-bar hourly frame and no fallback id. -/
def env1w : CandidateEnv :=
  { fetch1h := some d10
    fetch15m := some [mkBar 100 1]
    cgId := none
    cgData := none
    db := some []
    coinId := "binance:Y"
    now := 0
    sendOk := true }

/-- 48 bars whose previous-24h volume sum is zero. -/
def l48z : List Bar := List.replicate 48 (mkBar 100 0)

/-- 48 flat bars: all three numeric signals defined, MACD cross false. -/
def l48flat : List Bar := List.replicate 48 (mkBar 100 1)

/-- A candidate with defined numeric signals but no MACD cross. -/
def envFlat : CandidateEnv :=
  { fetch1h := some l48flat
    fetch15m := some [mkBar 100 1]
    cgId := none
    cgData := none
    db := some []
    coinId := "binance:Z"
    now := 0
    sendOk := true }

/-- 48 bars whose last-24h volume tripled (previous sum 24, last sum 72). -/
def l6vol : List Bar := List.replicate 24 (mkBar 1 1) ++ List.replicate 24 (mkBar 1 3)

/-- A three-sample market chart spanning two hourly buckets. -/
def chart7 : MarketChart :=
  { prices := [(0, 5), (1800000, 3), (3600000, 7)]
    total_volumes := [(0, 10), (1800000, 20)] }

/-- The hourly buckets synthesized from `chart7`. -/
def chart7bars1h : List Bar := [⟨5, 5, 3, 3, 30⟩, ⟨7, 7, 7, 7, 20⟩]

/-- The 15-minute buckets synthesized from `chart7`. -/
def chart7bars15m : List Bar := [⟨5, 5, 5, 5, 10⟩, ⟨3, 3, 3, 3, 20⟩, ⟨7, 7, 7, 7, 20⟩]

/-- A qualifying CoinGecko market row (`pct 20 ≥ 10`, volume `200000`). -/
def sbM1 : SBMarket := ⟨"pepe", "PEPE", 20, 200000⟩

/-- A second qualifying CoinGecko market row. -/
def sbM2 : SBMarket := ⟨"doge", "DOGE", 20, 200000⟩

/-! ## Helper lemmas shared by the claim theorems. -/

lemma length_ewmSeriesD (a : ℚ) (cl : List ℚ) : (ewmSeriesD a cl).length = cl.length := by
  cases cl with
  | nil => rfl
  | cons x xs => simp [ewmSeriesD, List.length_scanl]

lemma length_macdLineSeries (cl : List ℚ) : (macdLineSeries cl).length = cl.length := by
  simp [macdLineSeries, length_ewmSeriesD]

lemma length_closes (l : List Bar) : (closes l).length = l.length := by
  simp [closes]

lemma compute_signals_fields (l : List Bar) (d15 : Option (List Bar)) (hne : l ≠ []) :
    compute_signals (some l) d15 =
      ⟨volPct24h l, pricePct15vs1h l d15, rsi1hOf l, macdBullCross l,
       some (lastBar l).close⟩ := by
  simp [compute_signals, List.isEmpty_iff, hne]

lemma evalSignals_insufficient (sig : Signals) (db : Option (List AlertRow))
    (cid : String) (now : ℤ) (s : Bool)
    (h : sig.vol_pct_24h = none ∨ sig.price_pct_15_vs_1h = none ∨ sig.rsi_1h = none) :
    evalSignals sig db cid now s = .skipInsufficient := by
  rcases sig with ⟨v, p, r, m, lc⟩
  simp only at h
  rcases h with rfl | rfl | rfl
  · cases p <;> cases r <;> rfl
  · cases v <;> cases r <;> rfl
  · cases v <;> cases p <;> rfl

lemma evalSignals_some (sig : Signals) (v p r : ℚ)
    (hv : sig.vol_pct_24h = some v) (hp : sig.price_pct_15_vs_1h = some p)
    (hr : sig.rsi_1h = some r) (db : Option (List AlertRow)) (cid : String)
    (now : ℤ) (s : Bool) :
    evalSignals sig db cid now s =
      if 150 ≤ v ∧ (3 ≤ p ∧ p ≤ 15) ∧ (50 ≤ r ∧ r ≤ 70) ∧ sig.macd_bull_cross = true then
        (if was_alerted_recent_http db cid (now - 6 * 3600) then .skipDedup
         else if s then .alerted else .dispatchFailed)
      else .skipThresholds := by
  rcases sig with ⟨v', p', r', m, lc⟩
  simp only at hv hp hr
  subst hv hp hr
  rfl

lemma processCandidate_outcome_of_final (env : CandidateEnv) (d1 d15 : List Bar)
    (hfin : finalData env = (some d1, some d15)) :
    (processCandidate env).outcome =
      evalSignals (compute_signals (some d1) (some d15)) env.db env.coinId env.now env.sendOk := by
  unfold processCandidate
  rw [hfin]

lemma processCandidate_outcome_cases (env : CandidateEnv) :
    (processCandidate env).outcome = .skipMissingData ∨
    ∃ d1 d15, finalData env = (some d1, some d15) ∧
      (processCandidate env).outcome =
        evalSignals (compute_signals (some d1) (some d15)) env.db env.coinId env.now env.sendOk := by
  unfold processCandidate
  rcases h : finalData env with ⟨f1, f15⟩
  match f1, f15 with
  | some d1, some d15 => exact Or.inr ⟨d1, d15, rfl, rfl⟩
  | none, f15 => exact Or.inl rfl
  | some d1, none => exact Or.inl rfl

lemma processCandidate_fallbackAttempted (env : CandidateEnv) :
    (processCandidate env).fallbackAttempted = (fallbackStep env).2.1 := by
  unfold processCandidate
  rcases h : finalData env with ⟨f1, f15⟩
  match f1, f15 with
  | some d1, some d15 => rfl
  | none, f15 => rfl
  | some d1, none => rfl

lemma processCandidate_final (env : CandidateEnv) :
    (processCandidate env).final1h = (finalData env).1 ∧
    (processCandidate env).final15m = (finalData env).2 := by
  unfold processCandidate
  rcases h : finalData env with ⟨f1, f15⟩
  match f1, f15 with
  | some d1, some d15 => exact ⟨rfl, rfl⟩
  | none, f15 => exact ⟨rfl, rfl⟩
  | some d1, none => exact ⟨rfl, rfl⟩

lemma evalSignals_ne_alerted_of_sendFail (sig : Signals) (db : Option (List AlertRow))
    (cid : String) (now : ℤ) :
    evalSignals sig db cid now false ≠ .alerted := by
  rcases sig with ⟨v, p, r, m, lc⟩
  cases v <;> cases p <;> cases r <;>
    simp only [evalSignals] <;> first
      | (split_ifs <;> simp_all)
      | simp

lemma evalSignals_ne_skipDedup_of_dbFail (sig : Signals) (cid : String) (now : ℤ) (s : Bool) :
    evalSignals sig none cid now s ≠ .skipDedup := by
  rcases sig with ⟨v, p, r, m, lc⟩
  cases v <;> cases p <;> cases r <;>
    simp only [evalSignals, was_alerted_recent_http] <;> first
      | (split_ifs <;> simp_all)
      | simp

lemma recordedLedger_eq_false_iff (o : Outcome) : recordedLedger o = false ↔ o ≠ .alerted := by
  cases o <;> simp [recordedLedger]

lemma dispatched_eq_false_iff (o : Outcome) :
    dispatched o = false ↔ o ≠ .alerted ∧ o ≠ .dispatchFailed := by
  cases o <;> simp [dispatched]

lemma bars48_ne_nil : bars48 ≠ [] := by decide

lemma bars48_volPct : volPct24h bars48 = some 200 := by
  norm_num [volPct24h, bars48, volumes, volPrev24, volLast24, mkBar, List.replicate,
    List.sum_cons]

lemma bars48_pricePct : pricePct15vs1h bars48 (some frame15) = some 4 := by
  norm_num [pricePct15vs1h, bars48, frame15, mkBar, List.replicate, lastBar,
    List.dropLast, List.getLastD]

lemma bars48_rsi : rsi1hOf bars48 = some (4845400 / 71269) := by
  norm_num [rsi1hOf, bars48, closes, rsiLast, mkBar, List.replicate, ewmLastD,
    List.zipWith]

set_option maxRecDepth 10000 in
set_option maxHeartbeats 4000000 in
lemma bars48_macd : macdBullCross bars48 = true := by
  norm_num [macdBullCross, bars48, closes, mkBar, List.replicate, macdLineSeries,
    macdSignalSeries, ewmSeriesD, macdPrev, macdSigPrev, macdCur, macdSigCur,
    List.zipWith, List.scanl, List.dropLast, List.getLastD]

lemma env48_final : finalData env48 = (some bars48, some frame15) := by
  simp [finalData, fallbackStep, need_fallback, env48, bars48, frame15]

/-- Assembly lemma: a candidate whose final frames qualify on all four
rules, with a failed ledger read, reaches the dispatch step; the outcome is
decided by the Telegram result alone. -/
lemma outcome_qualified (env : CandidateEnv) (d1 d15 : List Bar) (v p r : ℚ)
    (hfin : finalData env = (some d1, some d15)) (hne : d1 ≠ [])
    (hv : volPct24h d1 = some v) (hp : pricePct15vs1h d1 (some d15) = some p)
    (hr : rsi1hOf d1 = some r) (hm : macdBullCross d1 = true)
    (hcond : 150 ≤ v ∧ (3 ≤ p ∧ p ≤ 15) ∧ (50 ≤ r ∧ r ≤ 70))
    (hdb : env.db = none) :
    (processCandidate env).outcome =
      (if env.sendOk then Outcome.alerted else Outcome.dispatchFailed) := by
  rw [processCandidate_outcome_of_final env d1 d15 hfin,
      compute_signals_fields d1 (some d15) hne,
      evalSignals_some _ v p r hv hp hr]
  rw [if_pos ⟨hcond.1, hcond.2.1, hcond.2.2, hm⟩, hdb]
  simp [was_alerted_recent_http]

lemma env48_outcome : (processCandidate env48).outcome = .alerted := by
  have h := outcome_qualified env48 bars48 frame15 200 4 (4845400 / 71269)
    env48_final bars48_ne_nil bars48_volPct bars48_pricePct bars48_rsi bars48_macd
    (by norm_num) rfl
  simpa [env48] using h

/-! ## Claim theorems. -/

/-- C3: in both the REST scanner's loop body and the sqlite scanner's loop
body, a failed Telegram dispatch suppresses the ledger `record` call — no
alert row is written and the candidate is not appended to the returned
alerted list. -/
theorem failed_dispatch_suppresses_record (env : CandidateEnv) (senv : SqliteEnv)
    (h : env.sendOk = false) (hs : senv.sendOk = false) :
    recordedLedger (processCandidate env).outcome = false ∧
    (processCandidate env).outcome ≠ .alerted ∧
    recordedSq (processEntrySqlite senv) = false ∧
    processEntrySqlite senv ≠ .alerted := by
  have hhttp : (processCandidate env).outcome ≠ .alerted := by
    rcases processCandidate_outcome_cases env with hcase | ⟨d1, d15, _, hcase⟩
    · rw [hcase]; simp
    · rw [hcase, h]
      exact evalSignals_ne_alerted_of_sendFail _ _ _ _
  have hsql : processEntrySqlite senv ≠ .alerted := by
    unfold processEntrySqlite
    rw [hs]
    split_ifs <;> simp_all
  refine ⟨(recordedLedger_eq_false_iff _).2 hhttp, hhttp, ?_, hsql⟩
  cases hh : processEntrySqlite senv <;> simp [recordedSq] <;> exact hsql hh

/-- C3 witness: the fully qualifying candidate `env48send` (whose dispatch
fails) produces no ledger record and is not alerted; the same holds for a
qualifying sqlite entry with a failing send. -/
theorem failed_dispatch_suppresses_record_witness :
    recordedLedger (processCandidate env48send).outcome = false ∧
    (processCandidate env48send).outcome ≠ .alerted ∧
    recordedSq (processEntrySqlite ⟨⟨"pepe", "PEPE", 20, 200000⟩, false, false⟩) = false ∧
    processEntrySqlite ⟨⟨"pepe", "PEPE", 20, 200000⟩, false, false⟩ ≠ .alerted :=
  failed_dispatch_suppresses_record env48send ⟨⟨"pepe", "PEPE", 20, 200000⟩, false, false⟩
    rfl rfl

/-- C4: a failed ledger read makes `was_alerted_recent` return `false`, and
a candidate processed with a failing ledger read is never skipped by the
dedup check — a qualifying candidate is still dispatched. -/
theorem ledger_read_failure_fail_open (key : String) (cutoff : ℤ) (env : CandidateEnv)
    (hdb : env.db = none) :
    was_alerted_recent_http none key cutoff = false ∧
    (processCandidate env).outcome ≠ .skipDedup := by
  refine ⟨rfl, ?_⟩
  rcases processCandidate_outcome_cases env with hcase | ⟨d1, d15, _, hcase⟩
  · rw [hcase]; simp
  · rw [hcase, hdb]
    exact evalSignals_ne_skipDedup_of_dbFail _ _ _ _

/-- C4 witness: `env48` qualifies on all four rules and its ledger read
fails; the dedup check is skipped open and the candidate is in fact
alerted. -/
theorem ledger_read_failure_fail_open_witness :
    env48.db = none ∧
    (was_alerted_recent_http none "binance:TEST" 0 = false ∧
     (processCandidate env48).outcome ≠ .skipDedup) ∧
    (processCandidate env48).outcome = .alerted :=
  ⟨rfl, ledger_read_failure_fail_open "binance:TEST" 0 env48 rfl, env48_outcome⟩

/-- C1: when a candidate's evaluated signal record has any of the three
numeric fields null, the candidate is skipped as insufficient before rule
evaluation: nothing is dispatched and nothing is recorded for it. -/
theorem null_signal_blocks_alert (env : CandidateEnv) (d1 d15 : List Bar)
    (hfin : finalData env = (some d1, some d15))
    (hnull : (compute_signals (some d1) (some d15)).vol_pct_24h = none ∨
             (compute_signals (some d1) (some d15)).price_pct_15_vs_1h = none ∨
             (compute_signals (some d1) (some d15)).rsi_1h = none) :
    (processCandidate env).outcome = .skipInsufficient ∧
    dispatched (processCandidate env).outcome = false ∧
    recordedLedger (processCandidate env).outcome = false := by
  have h := processCandidate_outcome_of_final env d1 d15 hfin
  rw [h, evalSignals_insufficient _ _ _ _ _ hnull]
  exact ⟨rfl, rfl, rfl⟩

/-- C1 witness: a candidate with only 10 hourly bars (volume metric null,
RSI null) is skipped with no dispatch and no record. -/
theorem null_signal_blocks_alert_witness :
    finalData env1w = (some d10, some [mkBar 100 1]) ∧
    (compute_signals (some d10) (some [mkBar 100 1])).vol_pct_24h = none ∧
    ((processCandidate env1w).outcome = .skipInsufficient ∧
     dispatched (processCandidate env1w).outcome = false ∧
     recordedLedger (processCandidate env1w).outcome = false) :=
  ⟨by simp [finalData, fallbackStep, need_fallback, env1w, d10],
   by simp [compute_signals, compute_signals_fields, d10, volPct24h, mkBar,
        List.replicate],
   null_signal_blocks_alert env1w d10 [mkBar 100 1]
     (by simp [finalData, fallbackStep, need_fallback, env1w, d10])
     (Or.inl (by simp [compute_signals, d10, volPct24h, mkBar, List.replicate]))⟩

/-- C6: with at least 48 hourly bars, the 24h volume change equals
`(sum(last 24 volumes) / sum(previous 24 volumes) − 1) × 100`, and it is
null when the previous-24h sum is nonpositive or fewer than 48 bars are
available. -/
theorem volume_change_formula (l : List Bar) (d15 : Option (List Bar)) :
    (48 ≤ l.length →
      (0 < volPrev24 l →
        (compute_signals (some l) d15).vol_pct_24h =
          some ((volLast24 l / volPrev24 l - 1) * 100)) ∧
      (volPrev24 l ≤ 0 → (compute_signals (some l) d15).vol_pct_24h = none)) ∧
    (l.length < 48 → (compute_signals (some l) d15).vol_pct_24h = none) := by
  constructor
  · intro h48
    have hne : l ≠ [] := by
      intro h
      subst h
      simp at h48
    rw [compute_signals_fields l d15 hne]
    constructor
    · intro hpos
      simp [volPct24h, h48, hpos]
    · intro hle
      simp [volPct24h, h48, not_lt.2 hle]
  · intro hlt
    by_cases hne : l = []
    · subst hne
      simp [compute_signals]
    · rw [compute_signals_fields l d15 hne]
      simp [volPct24h, Nat.not_le.2 hlt]

/-- C6 witness: 24 bars of volume 1 followed by 24 bars of volume 3 give a
+200% volume change. -/
theorem volume_change_formula_witness :
    (48 : ℕ) ≤ l6vol.length ∧ (0 : ℚ) < volPrev24 l6vol ∧
    (compute_signals (some l6vol) none).vol_pct_24h =
      some ((volLast24 l6vol / volPrev24 l6vol - 1) * 100) ∧
    (volLast24 l6vol / volPrev24 l6vol - 1) * 100 = 200 :=
  ⟨by decide,
   by norm_num [volPrev24, volumes, l6vol, mkBar, List.replicate],
   ((volume_change_formula l6vol none).1 (by decide)).1
     (by norm_num [volPrev24, volumes, l6vol, mkBar, List.replicate]),
   by norm_num [volPrev24, volLast24, volumes, l6vol, mkBar, List.replicate]⟩

/-- C8: a key is recently-alerted immediately after `record` under the
clock value stored at write time, and no longer recently-alerted at any
query time more than six hours after the write (when every older record
for the key is also outside the window). -/
theorem dedup_window_roundtrip (db : List AlertRow) (key : String) (t tq : ℤ)
    (hold : ∀ r ∈ db, r.coin_id = key → r.alert_time < tq - 6 * 3600) :
    was_alerted_recent_sql (record_alert_sql db key t) key t 6 = true ∧
    (6 * 3600 < tq - t →
      was_alerted_recent_sql (record_alert_sql db key t) key tq 6 = false) := by
  constructor
  · simp only [was_alerted_recent_sql, record_alert_sql, List.any_append,
      Bool.or_eq_true, List.any_cons, List.any_nil]
    refine Or.inr (Or.inl ?_)
    simp only [decide_eq_true_eq]
    refine ⟨trivial, ?_⟩
    omega
  · intro hgt
    simp only [was_alerted_recent_sql, record_alert_sql, List.any_eq_false]
    intro r hr
    simp only [decide_eq_true_eq, not_and, not_le]
    rcases List.mem_append.1 hr with hmem | hmem
    · intro hid
      have := hold r hmem hid
      omega
    · simp only [List.mem_singleton] at hmem
      subst hmem
      intro _
      simp only
      omega

/-- C8 witness: record at time `10^6`, then query at the same instant
(true) and at `10^6 + 7h` with no other rows (false). -/
theorem dedup_window_roundtrip_witness :
    was_alerted_recent_sql (record_alert_sql [] "binance:BTC" 1000000) "binance:BTC" 1000000 6 = true ∧
    was_alerted_recent_sql (record_alert_sql [] "binance:BTC" 1000000) "binance:BTC" (1000000 + 7 * 3600) 6 = false :=
  ⟨(dedup_window_roundtrip [] "binance:BTC" 1000000 (1000000 + 7 * 3600) (by simp)).1,
   (dedup_window_roundtrip [] "binance:BTC" 1000000 (1000000 + 7 * 3600) (by simp)).2
     (by omega)⟩

/-- C9: in the `scanner_supabase.py` pass, an unguarded ledger-read error
during the first qualifying market's dedup check aborts the whole pass
(the second qualifying market is never processed and no alert list is
returned), whereas the same pass with a working ledger alerts both —
contradicting the requirement that candidate-level failures be caught and
the pass continue. -/
theorem sb_ledger_error_aborts_pass :
    scan_once_sb [] [sbM1, sbM2] (fun _ => .error ()) (fun _ => .ok ()) true = .error () ∧
    scan_once_sb [] [sbM1, sbM2] (fun _ => .ok false) (fun _ => .ok ()) true =
      .ok ["pepe", "doge"] := by
  constructor <;> simp +decide [scan_once_sb, sb_loop1, sb_loop2, sbM1, sbM2]

lemma length_macdSignalSeries (cl : List ℚ) : (macdSignalSeries cl).length = cl.length := by
  simp [macdSignalSeries, length_ewmSeriesD, length_macdLineSeries]

/-- C2 (amended): with the signal record of any hourly frame,
`macd_bull_cross` is true iff the frame has at least 35 bars, the
previous-bar MACD is strictly below its signal and the current-bar MACD is
strictly above its signal — the code requires a strict inequality at the
current bar, not "at or above". -/
theorem macd_cross_iff_strict (l : List Bar) (d15 : Option (List Bar)) :
    (compute_signals (some l) d15).macd_bull_cross = true ↔
      (35 ≤ l.length ∧ macdPrev (closes l) < macdSigPrev (closes l) ∧
       macdSigCur (closes l) < macdCur (closes l)) := by
  by_cases hne : l = []
  · subst hne
    simp [compute_signals]
  · rw [compute_signals_fields l d15 hne]
    show macdBullCross l = true ↔ _
    unfold macdBullCross
    by_cases h35 : 35 ≤ l.length
    · have hlen1 : 2 ≤ (macdLineSeries (closes l)).length := by
        rw [length_macdLineSeries, length_closes]
        omega
      have hlen2 : 2 ≤ (macdSignalSeries (closes l)).length := by
        rw [length_macdSignalSeries, length_closes]
        omega
      simp [h35, hlen1, hlen2]
    · simp [h35]

set_option maxRecDepth 20000 in
set_option maxHeartbeats 8000000 in
/-- C2 counterexample: on the 35-bar series `ceBars` the previous-bar MACD
is strictly below its signal (−140 < −28) and the current-bar MACD is at
the signal (−28 = −28), so the claimed "at or above" condition holds, yet
`macd_bull_cross` is false — the code fires only on a strict crossing. -/
theorem macd_at_signal_counterexample :
    (35 : ℕ) ≤ ceBars.length ∧
    macdPrev (closes ceBars) < macdSigPrev (closes ceBars) ∧
    macdSigCur (closes ceBars) ≤ macdCur (closes ceBars) ∧
    (compute_signals (some ceBars) (some [mkBar 100 1])).macd_bull_cross = false := by
  refine ⟨by decide, ?_⟩
  rw [compute_signals_fields ceBars (some [mkBar 100 1]) (by decide)]
  show _ ∧ _ ∧ macdBullCross ceBars = false
  norm_num [macdBullCross, macdPrev, macdSigPrev, macdCur, macdSigCur,
    macdLineSeries, macdSignalSeries, ewmSeriesD, ceBars, ceCloses, closes, mkBar,
    List.replicate, List.zipWith, List.scanl, List.dropLast, List.getLastD]

lemma need_fallback_iff (f1 f15 : Option (List Bar)) :
    need_fallback f1 f15 = true ↔
      (f1 = none ∨ f15 = none ∨ (∃ l, f1 = some l ∧ l.length < 48)) := by
  cases f1 <;> cases f15 <;> simp [need_fallback] <;> omega

lemma fallbackStep_attempted (env : CandidateEnv) :
    (fallbackStep env).2.1 = (need_fallback env.fetch1h env.fetch15m && env.cgId.isSome) := by
  unfold fallbackStep
  by_cases hnf : need_fallback env.fetch1h env.fetch15m = true
  · rw [if_pos hnf, hnf]
    cases env.cgId with
    | none => simp
    | some cid => cases env.cgData with
      | none => simp
      | some pr => rcases pr with ⟨a, b⟩; simp
  · rw [if_neg hnf]
    simp [Bool.eq_false_iff.2 hnf]

/-- C5 (amended): the CoinGecko synthesis is invoked iff either fetch is
absent or the hourly frame has fewer than 48 bars, AND a CoinGecko id was
found for the base asset; on success, the synthesized frames replace only
those primary frames that are absent or empty (`fallbackApply`) — a
non-empty but too-short primary frame is kept. -/
theorem fallback_invocation_and_replacement (env : CandidateEnv) :
    ((processCandidate env).fallbackAttempted = true ↔
      ((env.fetch1h = none ∨ env.fetch15m = none ∨
        (∃ l, env.fetch1h = some l ∧ l.length < 48)) ∧ env.cgId ≠ none)) ∧
    (∀ cg1h cg15m, env.cgData = some (cg1h, cg15m) →
      need_fallback env.fetch1h env.fetch15m = true → env.cgId ≠ none →
      (processCandidate env).final1h = fallbackApply env.fetch1h cg1h ∧
      (processCandidate env).final15m = fallbackApply env.fetch15m cg15m) := by
  constructor
  · rw [processCandidate_fallbackAttempted, fallbackStep_attempted]
    rw [Bool.and_eq_true, need_fallback_iff]
    simp [Option.isSome_iff_ne_none]
  · intro cg1h cg15m hcg hnf hid
    obtain ⟨cid, hcid⟩ := Option.ne_none_iff_exists'.1 hid
    have hstep : (fallbackStep env).1 =
        (fallbackApply env.fetch1h cg1h, fallbackApply env.fetch15m cg15m) := by
      unfold fallbackStep
      rw [if_pos hnf, hcid, hcg]
    exact ⟨(processCandidate_final env).1.trans (congrArg Prod.fst hstep),
           (processCandidate_final env).2.trans (congrArg Prod.snd hstep)⟩

lemma env5_final : finalData env5 = (some d40, some [mkBar 100 1]) := by
  simp [finalData, fallbackStep, need_fallback, env5, fallbackApply, d40, d72]

/-- C5 counterexample: `env5`'s primary fetch returns 40 bars (too short),
the synthesis succeeds with the 72-bar frame `d72`, yet the frame used for
signal evaluation is the insufficient primary `d40` — the candidate is
skipped for insufficient metrics even though the synthesized data would
have had a defined volume metric.  The claim that synthesized bars are
used "in place of the insufficient primary data" is false. -/
theorem fallback_keeps_short_primary_counterexample :
    need_fallback env5.fetch1h env5.fetch15m = true ∧
    (processCandidate env5).fallbackAttempted = true ∧
    (processCandidate env5).usedFallback = true ∧
    (processCandidate env5).final1h = some d40 ∧
    d40 ≠ d72 ∧
    (compute_signals (some d72) (some [mkBar 100 1])).vol_pct_24h = some 0 ∧
    (processCandidate env5).outcome = .skipInsufficient := by
  refine ⟨by decide, ?_, ?_, ?_, ?_, ?_, ?_⟩
  · rw [processCandidate_fallbackAttempted, fallbackStep_attempted]
    decide
  · unfold processCandidate
    rw [env5_final]
    show (fallbackStep env5).2.2 = true
    unfold fallbackStep
    decide
  · rw [(processCandidate_final env5).1, env5_final]
  · intro h
    have := congrArg List.length h
    simp [d40, d72] at this
  · rw [compute_signals_fields d72 (some [mkBar 100 1]) (by decide)]
    show volPct24h d72 = some 0
    norm_num [volPct24h, volPrev24, volLast24, volumes, d72, mkBar, List.replicate]
  · rw [processCandidate_outcome_of_final env5 d40 [mkBar 100 1] env5_final]
    refine evalSignals_insufficient _ _ _ _ _ (Or.inl ?_)
    rw [compute_signals_fields d40 (some [mkBar 100 1]) (by decide)]
    show volPct24h d40 = none
    simp [volPct24h, d40]

/-- C5 witness: the amended characterization instantiated at `env5`. -/
theorem fallback_invocation_and_replacement_witness :
    ((processCandidate env5).fallbackAttempted = true ↔
      ((env5.fetch1h = none ∨ env5.fetch15m = none ∨
        (∃ l, env5.fetch1h = some l ∧ l.length < 48)) ∧ env5.cgId ≠ none)) ∧
    ((processCandidate env5).final1h = fallbackApply (some d40) d72 ∧
     (processCandidate env5).final15m = fallbackApply (some [mkBar 100 1]) [mkBar 100 1]) :=
  ⟨(fallback_invocation_and_replacement env5).1,
   (fallback_invocation_and_replacement env5).2 d72 [mkBar 100 1] rfl (by decide)
     (by simp [env5])⟩

lemma le_foldl_max (l : List ℚ) (x : ℚ) : x ≤ l.foldl max x := by
  induction l generalizing x with
  | nil => exact le_refl x
  | cons y ys ih => exact le_trans (le_max_left x y) (ih (max x y))

lemma mem_le_foldl_max (l : List ℚ) (x a : ℚ) (h : a ∈ l) : a ≤ l.foldl max x := by
  induction l generalizing x with
  | nil => cases h
  | cons y ys ih =>
    rcases List.mem_cons.1 h with rfl | hmem
    · exact le_trans (le_max_right x a) (le_foldl_max ys (max x a))
    · exact ih (max x y) hmem

lemma foldl_min_le (l : List ℚ) (x : ℚ) : l.foldl min x ≤ x := by
  induction l generalizing x with
  | nil => exact le_refl x
  | cons y ys ih => exact le_trans (ih (min x y)) (min_le_left x y)

lemma foldl_min_le_mem (l : List ℚ) (x a : ℚ) (h : a ∈ l) : l.foldl min x ≤ a := by
  induction l generalizing x with
  | nil => cases h
  | cons y ys ih =>
    rcases List.mem_cons.1 h with rfl | hmem
    · exact le_trans (foldl_min_le ys (min x a)) (min_le_right x a)
    · exact ih (min x y) hmem

lemma foldl_lastD_mem (l : List ℚ) (x : ℚ) :
    l.foldl (fun _ v => v) x = x ∨ l.foldl (fun _ v => v) x ∈ l := by
  induction l generalizing x with
  | nil => exact Or.inl rfl
  | cons y ys ih =>
    rcases ih y with h | h
    · exact Or.inr (by simp [List.foldl_cons, h])
    · exact Or.inr (List.mem_cons_of_mem y h)

lemma resample_bucket_invariants (rows : List PV) (ms : ℤ) (b : Bar)
    (hb : b ∈ resampleBuckets rows ms) :
    b.low ≤ b.high ∧ b.open_ ≤ b.high ∧ b.close ≤ b.high ∧
    b.low ≤ b.open_ ∧ b.low ≤ b.close ∧ ∃ r ∈ rows, b.open_ = r.price := by
  obtain ⟨k, hk, hbk⟩ := List.mem_filterMap.1 hb
  rcases hfil : rows.filter (fun r => bucketKey ms r.ts = k) with _ | ⟨r, rs⟩
  · rw [hfil] at hbk
    cases hbk
  · rw [hfil] at hbk
    simp only [Option.some.injEq] at hbk
    subst hbk
    have hro : r ∈ rows := List.mem_of_mem_filter (hfil ▸ List.mem_cons_self r rs)
    have hopen : r.price ≤ (rs.map PV.price).foldl max r.price := le_foldl_max _ _
    have hlowopen : (rs.map PV.price).foldl min r.price ≤ r.price := foldl_min_le _ _
    have hclose : (rs.map PV.price).foldl (fun _ v => v) r.price = r.price ∨
        (rs.map PV.price).foldl (fun _ v => v) r.price ∈ rs.map PV.price :=
      foldl_lastD_mem _ _
    have hclosehigh : (rs.map PV.price).foldl (fun _ v => v) r.price ≤
        (rs.map PV.price).foldl max r.price := by
      rcases hclose with h | h
      · rw [h]; exact hopen
      · exact mem_le_foldl_max _ _ _ h
    have hlowclose : (rs.map PV.price).foldl min r.price ≤
        (rs.map PV.price).foldl (fun _ v => v) r.price := by
      rcases hclose with h | h
      · rw [h]; exact hlowopen
      · exact foldl_min_le_mem _ _ _ h
    exact ⟨le_trans hlowopen hopen, hopen, hclosehigh, hlowopen, hlowclose,
      ⟨r, hro, rfl⟩⟩

/-- C7: every bucket of either frame produced by the CoinGecko synthesis
satisfies the OHLC invariants (`high` bounds `open`, `low`, `close` from
above, `low` from below), and its `open` is the price of an actual joined
sample — buckets with no underlying samples never appear. -/
theorem synthesized_bucket_invariants (chart : Option MarketChart) (d1 d15 : List Bar)
    (h : build_ohlcv_from_coingecko chart = some (d1, d15)) (b : Bar)
    (hb : b ∈ d1 ∨ b ∈ d15) :
    b.low ≤ b.high ∧ b.open_ ≤ b.high ∧ b.close ≤ b.high ∧
    b.low ≤ b.open_ ∧ b.low ≤ b.close ∧
    ∃ ch, chart = some ch ∧
      ∃ r ∈ mergeFfill ch.prices ch.total_volumes, b.open_ = r.price := by
  cases chart with
  | none => cases h
  | some ch =>
    simp only [build_ohlcv_from_coingecko] at h
    by_cases hemp : ch.prices.isEmpty
    · rw [if_pos hemp] at h
      cases h
    · rw [if_neg hemp] at h
      simp only [Option.some.injEq, Prod.mk.injEq] at h
      obtain ⟨h1, h15⟩ := h
      have hbmem : b ∈ resampleBuckets (mergeFfill ch.prices ch.total_volumes) 3600000 ∨
          b ∈ resampleBuckets (mergeFfill ch.prices ch.total_volumes) 900000 := by
        rcases hb with hb | hb
        · exact Or.inl (h1 ▸ hb)
        · exact Or.inr (h15 ▸ hb)
      rcases hbmem with hb' | hb'
      · obtain ⟨a1, a2, a3, a4, a5, a6⟩ := resample_bucket_invariants _ _ _ hb'
        exact ⟨a1, a2, a3, a4, a5, ch, rfl, a6⟩
      · obtain ⟨a1, a2, a3, a4, a5, a6⟩ := resample_bucket_invariants _ _ _ hb'
        exact ⟨a1, a2, a3, a4, a5, ch, rfl, a6⟩

/-- C7 witness: `chart7` synthesizes two hourly buckets and three
15-minute buckets; the first hourly bucket `⟨5, 5, 3, 3, 30⟩` satisfies
every OHLC invariant and opens at an actual sample price. -/
theorem synthesized_bucket_invariants_witness :
    build_ohlcv_from_coingecko (some chart7) = some (chart7bars1h, chart7bars15m) ∧
    ((⟨5, 5, 3, 3, 30⟩ : Bar).low ≤ (⟨5, 5, 3, 3, 30⟩ : Bar).high ∧
     (⟨5, 5, 3, 3, 30⟩ : Bar).open_ ≤ (⟨5, 5, 3, 3, 30⟩ : Bar).high ∧
     (⟨5, 5, 3, 3, 30⟩ : Bar).close ≤ (⟨5, 5, 3, 3, 30⟩ : Bar).high ∧
     (⟨5, 5, 3, 3, 30⟩ : Bar).low ≤ (⟨5, 5, 3, 3, 30⟩ : Bar).open_ ∧
     (⟨5, 5, 3, 3, 30⟩ : Bar).low ≤ (⟨5, 5, 3, 3, 30⟩ : Bar).close ∧
     ∃ ch, some chart7 = some ch ∧
       ∃ r ∈ mergeFfill ch.prices ch.total_volumes,
         (⟨5, 5, 3, 3, 30⟩ : Bar).open_ = r.price) := by
  have hbuild : build_ohlcv_from_coingecko (some chart7) =
      some (chart7bars1h, chart7bars15m) := by
    simp +decide [build_ohlcv_from_coingecko, chart7, mergeFfill, unionIndex, insertAsc,
      ffillAt, resampleBuckets, bucketKey, chart7bars1h, chart7bars15m]
    norm_num
  exact ⟨hbuild, synthesized_bucket_invariants (some chart7) chart7bars1h chart7bars15m
    hbuild ⟨5, 5, 3, 3, 30⟩ (Or.inl (by decide))⟩

lemma scanl_ewm_const (a c : ℚ) (n : ℕ) :
    (List.replicate n c).scanl (fun acc v => (1 - a) * acc + a * v) c =
      List.replicate (n + 1) c := by
  induction n with
  | zero => rfl
  | succ m ih =>
    rw [List.replicate_succ, List.scanl_cons]
    have hf : (1 - a) * c + a * c = c := by ring
    rw [hf, ih]
    simp [List.replicate_succ]

lemma ewmSeriesD_const (a c : ℚ) (n : ℕ) :
    ewmSeriesD a (List.replicate n c) = List.replicate n c := by
  cases n with
  | zero => rfl
  | succ m =>
    rw [List.replicate_succ]
    show (List.replicate m c).scanl _ c = _
    rw [scanl_ewm_const, ← List.replicate_succ]

lemma macdLine_const (c : ℚ) (n : ℕ) :
    macdLineSeries (List.replicate n c) = List.replicate n 0 := by
  rw [macdLineSeries, ewmSeriesD_const, ewmSeriesD_const, List.zipWith_replicate']
  norm_num

lemma macdSignal_const (c : ℚ) (n : ℕ) :
    macdSignalSeries (List.replicate n c) = List.replicate n 0 := by
  rw [macdSignalSeries, macdLine_const]
  exact ewmSeriesD_const _ _ _

lemma getLastD_replicate_zero (n : ℕ) : (List.replicate n (0 : ℚ)).getLastD 0 = 0 := by
  induction n with
  | zero => rfl
  | succ m ih => rw [List.replicate_succ, List.getLastD_cons]; exact ih

lemma macd_flat : macdBullCross l48flat = false := by
  have hcl : closes l48flat = List.replicate 48 (100 : ℚ) := by
    simp [closes, l48flat, mkBar, List.map_replicate]
  have hprev : macdPrev (closes l48flat) = 0 := by
    rw [macdPrev, hcl, macdLine_const, List.dropLast_replicate]
    exact getLastD_replicate_zero _
  have hsprev : macdSigPrev (closes l48flat) = 0 := by
    rw [macdSigPrev, hcl, macdSignal_const, List.dropLast_replicate]
    exact getLastD_replicate_zero _
  have hcur : macdCur (closes l48flat) = 0 := by
    rw [macdCur, hcl, macdLine_const]
    exact getLastD_replicate_zero _
  have hscur : macdSigCur (closes l48flat) = 0 := by
    rw [macdSigCur, hcl, macdSignal_const]
    exact getLastD_replicate_zero _
  unfold macdBullCross
  rw [hprev, hsprev, hcur, hscur]
  simp

/-- C10: `compute_signals` is total and fully populated on every input —
a missing or empty hourly frame yields the all-default record rather than
an error, a nonpositive previous-24h volume sum yields a null volume
metric rather than a division error, and `macd_bull_cross` being a plain
boolean means a candidate whose three numeric fields are all defined is
never excluded as missing data: when its MACD flag is false it is rejected
at rule evaluation (`skipThresholds`), not at the null check. -/
theorem compute_signals_total_guarded :
    (∀ d15, compute_signals none d15 = ⟨none, none, none, false, none⟩) ∧
    (∀ d15, compute_signals (some []) d15 = ⟨none, none, none, false, none⟩) ∧
    (∀ (l : List Bar) (d15 : Option (List Bar)), 48 ≤ l.length → volPrev24 l ≤ 0 →
      (compute_signals (some l) d15).vol_pct_24h = none) ∧
    (∀ (env : CandidateEnv) (d1 d15 : List Bar),
      finalData env = (some d1, some d15) →
      (compute_signals (some d1) (some d15)).vol_pct_24h ≠ none →
      (compute_signals (some d1) (some d15)).price_pct_15_vs_1h ≠ none →
      (compute_signals (some d1) (some d15)).rsi_1h ≠ none →
      (processCandidate env).outcome ≠ .skipInsufficient ∧
      ((compute_signals (some d1) (some d15)).macd_bull_cross = false →
       (processCandidate env).outcome = .skipThresholds)) := by
  refine ⟨fun d15 => rfl, fun d15 => rfl, ?_, ?_⟩
  · intro l d15 h48 hle
    have hne : l ≠ [] := by
      intro h
      subst h
      simp at h48
    rw [compute_signals_fields l d15 hne]
    simp [volPct24h, h48, not_lt.2 hle]
  · intro env d1 d15 hfin hv hp hr
    obtain ⟨v, hv'⟩ := Option.ne_none_iff_exists'.1 hv
    obtain ⟨p, hp'⟩ := Option.ne_none_iff_exists'.1 hp
    obtain ⟨r, hr'⟩ := Option.ne_none_iff_exists'.1 hr
    rw [processCandidate_outcome_of_final env d1 d15 hfin,
        evalSignals_some _ v p r hv' hp' hr']
    constructor
    · split_ifs <;> simp
    · intro hm
      rw [if_neg]
      simp [hm]

lemma envFlat_final : finalData envFlat = (some l48flat, some [mkBar 100 1]) := by
  simp [finalData, fallbackStep, need_fallback, envFlat, l48flat]

lemma l48flat_vol :
    (compute_signals (some l48flat) (some [mkBar 100 1])).vol_pct_24h = some 0 := by
  rw [compute_signals_fields _ _ (by decide)]
  show volPct24h l48flat = some 0
  norm_num [volPct24h, volPrev24, volLast24, volumes, l48flat, mkBar, List.replicate]

lemma l48flat_price :
    (compute_signals (some l48flat) (some [mkBar 100 1])).price_pct_15_vs_1h = some 0 := by
  rw [compute_signals_fields _ _ (by decide)]
  show pricePct15vs1h l48flat (some [mkBar 100 1]) = some 0
  norm_num [pricePct15vs1h, l48flat, mkBar, List.replicate, lastBar, List.dropLast,
    List.getLastD]

lemma l48flat_rsi :
    (compute_signals (some l48flat) (some [mkBar 100 1])).rsi_1h = some 100 := by
  rw [compute_signals_fields _ _ (by decide)]
  show rsi1hOf l48flat = some 100
  norm_num [rsi1hOf, rsiLast, closes, l48flat, mkBar, List.replicate, ewmLastD,
    List.zipWith]

/-- C10 witness: 48 bars of volume 0 give a guarded null volume metric, and
the flat 48-bar candidate `envFlat` (all three numeric metrics defined,
MACD flag false) is rejected at rule evaluation, not excluded as missing
data. -/
theorem compute_signals_total_guarded_witness :
    ((48 : ℕ) ≤ l48z.length ∧ volPrev24 l48z ≤ 0 ∧
     (compute_signals (some l48z) none).vol_pct_24h = none) ∧
    (finalData envFlat = (some l48flat, some [mkBar 100 1]) ∧
     (compute_signals (some l48flat) (some [mkBar 100 1])).macd_bull_cross = false ∧
     (processCandidate envFlat).outcome ≠ .skipInsufficient ∧
     (processCandidate envFlat).outcome = .skipThresholds) := by
  have hz : volPrev24 l48z ≤ 0 := by
    norm_num [volPrev24, volumes, l48z, mkBar, List.replicate]
  have hmacd : (compute_signals (some l48flat) (some [mkBar 100 1])).macd_bull_cross = false := by
    rw [compute_signals_fields _ _ (by decide)]
    exact macd_flat
  have hpart := compute_signals_total_guarded.2.2.2 envFlat l48flat [mkBar 100 1]
    envFlat_final (by rw [l48flat_vol]; exact Option.some_ne_none 0)
    (by rw [l48flat_price]; exact Option.some_ne_none 0)
    (by rw [l48flat_rsi]; exact Option.some_ne_none 100)
  exact ⟨⟨by decide, hz, compute_signals_total_guarded.2.2.1 l48z none (by decide) hz⟩,
    envFlat_final, hmacd, hpart.1, hpart.2 hmacd⟩

end Scanner
